import Mathlib

/-!
Shallow embedding of `src/app.py` (College Management API): a FastAPI
application with JWT bearer authentication and three in-memory collections
(students, courses, enrollments), each with a monotonically increasing
integer id counter.

Modelling conventions:
- Machine time (`datetime.utcnow()`) is a `Nat` counting seconds.
- A JWT is modelled abstractly: `JwtToken.signed claims key` stands for the
  string `jwt.encode(claims, key, HS256)`; signature verification against a
  key succeeds exactly when the signing key equals the verification key
  (HMAC symmetric signing).  `JwtToken.malformed s` stands for any string
  that is not a well-formed token.  `python-jose`'s `jwt.decode` raises
  `JWTError` on a bad signature, a malformed token, or an `exp` claim in the
  past (leeway 0: it fails when `exp < now`); all those failures are one
  exception type, which is what the code catches.
- Pydantic request models carry, next to the validated field values, one
  boolean per field recording whether the field was explicitly present in
  the request payload (pydantic's `__fields_set__`, consumed by
  `dict(exclude_unset=True)`).
- Each route handler is a pure function `AppState → args → AppState × Response`;
  a Python `raise HTTPException` before any mutation is modelled by
  returning the input state unchanged together with the error response.
-/

namespace CollegeMgmt

/-- `SECRET_KEY` default from `app.py` line 17 (environment variable unset). -/
def SECRET_KEY : String := "your-super-secret-jwt-key-for-fastapi"

/-- `ACCESS_TOKEN_EXPIRE_MINUTES` from `app.py` line 19. -/
def ACCESS_TOKEN_EXPIRE_MINUTES : Nat := 60

/-- `VALID_USERNAME` from `app.py` line 24. -/
def VALID_USERNAME : String := "admin"

/-- `VALID_PASSWORD` from `app.py` line 25. -/
def VALID_PASSWORD : String := "password123"

/-- An `HTTPException` value: status code, detail message, response headers. -/
structure HTTPError where
  status : Nat
  detail : String
  headers : List (String × String)
deriving Repr, DecidableEq

/-- JWT claims used by the app: subject and expiry (seconds).  `jwt.decode`
only checks `exp` when the claim is present, hence the `Option`. -/
structure Claims where
  sub : Option String
  exp : Option Nat
deriving Repr, DecidableEq

/-- A bearer token string, viewed through the JWT lens: either a well-formed
token signed with some key, or any other string. -/
inductive JwtToken where
  | malformed (s : String)
  | signed (claims : Claims) (key : String)
deriving Repr, DecidableEq

/-- `jose.jwt.decode(token, key, [HS256])`: fails (raises `JWTError`) on a
malformed token, a signature made with a different key, or an expired `exp`
claim (`exp < now`); otherwise returns the claims. -/
def jwtDecode (tok : JwtToken) (key : String) (now : Nat) : Option Claims :=
  match tok with
  | .malformed _ => none
  | .signed c k =>
    if k ≠ key then none
    else
      match c.exp with
      | none => some c
      | some e => if e < now then none else some c

/-- `create_access_token` (`app.py` lines 65-73): copies the claim data, sets
`exp` to `now + expires_delta` (or the 60-minute default), and signs with
`SECRET_KEY`. -/
def create_access_token (data : Claims) (now : Nat) (expires_delta : Option Nat) :
    JwtToken :=
  let expire : Nat :=
    match expires_delta with
    | some d => now + d
    | none => now + ACCESS_TOKEN_EXPIRE_MINUTES * 60
  JwtToken.signed { data with exp := some expire } SECRET_KEY

/-- The `credentials_exception` built in `get_current_user` (lines 76-80). -/
def credentials_exception : HTTPError :=
  { status := 401
    detail := "Could not validate credentials"
    headers := [("WWW-Authenticate", "Bearer")] }

/-- `get_current_user` (`app.py` lines 75-91): decode the token, require a
`sub` claim, require it to equal `VALID_USERNAME`; any failure raises the
single 401 `credentials_exception`. -/
def get_current_user (token : JwtToken) (now : Nat) : Except HTTPError String :=
  match jwtDecode token SECRET_KEY now with
  | none => .error credentials_exception
  | some payload =>
    match payload.sub with
    | none => .error credentials_exception
    | some username =>
      if username ≠ VALID_USERNAME then .error credentials_exception
      else .ok username

/-- Response body of `POST /token`. -/
structure Token where
  access_token : JwtToken
  token_type : String
deriving Repr, DecidableEq

/-- `login_for_access_token` (`app.py` lines 100-114): one fixed credential
pair; any mismatch raises one fixed 401; success returns a fresh signed
token with `sub := username` and a 60-minute expiry. -/
def login_for_access_token (username password : String) (now : Nat) :
    Except HTTPError Token :=
  if username ≠ VALID_USERNAME ∨ password ≠ VALID_PASSWORD then
    .error { status := 401
             detail := "Incorrect username or password"
             headers := [("WWW-Authenticate", "Bearer")] }
  else
    let access_token :=
      create_access_token { sub := some username, exp := none } now
        (some (ACCESS_TOKEN_EXPIRE_MINUTES * 60))
    .ok { access_token := access_token, token_type := "bearer" }

/-- A stored student record (the dict appended to `students_db`). -/
structure StudentRec where
  id : Int
  major : String
  email : String
deriving Repr, DecidableEq

/-- A stored course record (the dict appended to `courses_db`). -/
structure CourseRec where
  id : Int
  title : String
  code : String
  credits : Int
deriving Repr, DecidableEq

/-- A stored enrollment record (the dict appended to `enrollments_db`). -/
structure EnrollmentRec where
  id : Int
  student_id : Int
  course_id : Int
deriving Repr, DecidableEq

/-- The pydantic `Student` request model (`app.py` lines 45-48): validated
field values plus, for each field, whether it was explicitly present in the
request payload (pydantic `__fields_set__`; `id` defaults to `None`). -/
structure StudentIn where
  id : Option Int
  major : String
  email : String
  id_set : Bool
  major_set : Bool
  email_set : Bool
deriving Repr, DecidableEq

/-- The pydantic `Course` request model (`app.py` lines 51-55). -/
structure CourseIn where
  id : Option Int
  title : String
  code : String
  credits : Int
  id_set : Bool
  title_set : Bool
  code_set : Bool
  credits_set : Bool
deriving Repr, DecidableEq

/-- The pydantic `Enrollment` request model (`app.py` lines 58-61). -/
structure EnrollmentIn where
  id : Option Int
  student_id : Int
  course_id : Int
deriving Repr, DecidableEq

/-- The whole mutable module state: the three `_db` lists and the three
`next_*_id` counters (`app.py` lines 28-33). -/
structure AppState where
  students_db : List StudentRec
  courses_db : List CourseRec
  enrollments_db : List EnrollmentRec
  next_student_id : Int
  next_course_id : Int
  next_enrollment_id : Int
deriving Repr, DecidableEq

/-- The state at process start: empty collections, all counters at 1. -/
def initState : AppState :=
  { students_db := []
    courses_db := []
    enrollments_db := []
    next_student_id := 1
    next_course_id := 1
    next_enrollment_id := 1 }

/-- A response value returned by a handler. -/
inductive Response where
  | greeting (msg : String)
  | tokenOut (t : Token)
  | studentsOut (l : List StudentRec)
  | studentOut (r : StudentRec)
  | coursesOut (l : List CourseRec)
  | courseOut (r : CourseRec)
  | enrollmentsOut (l : List EnrollmentRec)
  | enrollmentOut (r : EnrollmentRec)
  | noContent
  | httpError (e : HTTPError)
deriving Repr, DecidableEq

/-- `home` (`app.py` lines 95-97). -/
def home (s : AppState) : AppState × Response :=
  (s, .greeting "Welcome to the College Management API!")

/-- `get_students` (`app.py` lines 117-119), after the auth dependency. -/
def get_students (s : AppState) : AppState × Response :=
  (s, .studentsOut s.students_db)

/-- `add_student` (`app.py` lines 121-128): `new_student = student_data.dict()`
(so `major`/`email` come from the payload), the `id` entry is overwritten
with `next_student_id`, the record is appended, the counter incremented. -/
def add_student (s : AppState) (student_data : StudentIn) : AppState × Response :=
  let new_student : StudentRec :=
    { id := s.next_student_id
      major := student_data.major
      email := student_data.email }
  ({ s with
      students_db := s.students_db ++ [new_student]
      next_student_id := s.next_student_id + 1 },
   .studentOut new_student)

/-- `get_student` (`app.py` lines 130-135): first record with matching id,
else 404. -/
def get_student (s : AppState) (student_id : Int) : AppState × Response :=
  match s.students_db.find? (fun st => st.id == student_id) with
  | some st => (s, .studentOut st)
  | none => (s, .httpError { status := 404, detail := "Student not found", headers := [] })

/-- The in-place merge `students_db[idx].update(updated_data)` where
`updated_data = student_data.dict(exclude_unset=True)` with the `id` key
deleted (`app.py` lines 141-144): each field explicitly set in the payload
overwrites the stored value; `id` is never touched. -/
def mergeStudent (st : StudentRec) (student_data : StudentIn) : StudentRec :=
  { st with
      major := if student_data.major_set then student_data.major else st.major
      email := if student_data.email_set then student_data.email else st.email }

/-- The scan-and-update loop of `update_student` on the raw list: update the
first record whose id matches, in place; `none` if no record matches. -/
def updateFirstStudent (db : List StudentRec) (student_id : Int)
    (student_data : StudentIn) : Option (List StudentRec × StudentRec) :=
  match db with
  | [] => none
  | st :: rest =>
    if st.id == student_id then
      let st' := mergeStudent st student_data
      some (st' :: rest, st')
    else
      match updateFirstStudent rest student_id student_data with
      | none => none
      | some (rest', ret) => some (st :: rest', ret)

/-- `update_student` (`app.py` lines 137-146). -/
def update_student (s : AppState) (student_id : Int) (student_data : StudentIn) :
    AppState × Response :=
  match updateFirstStudent s.students_db student_id student_data with
  | some (db', ret) => ({ s with students_db := db' }, .studentOut ret)
  | none => (s, .httpError { status := 404, detail := "Student not found", headers := [] })

/-- `delete_student` (`app.py` lines 148-155): rebind `students_db` to the
filtered list, then 404 if the length did not change. -/
def delete_student (s : AppState) (student_id : Int) : AppState × Response :=
  let initial_len := s.students_db.length
  let s' := { s with students_db := s.students_db.filter (fun st => st.id != student_id) }
  if s'.students_db.length == initial_len then
    (s', .httpError { status := 404, detail := "Student not found", headers := [] })
  else
    (s', .noContent)

/-- `get_courses` (`app.py` lines 158-160). -/
def get_courses (s : AppState) : AppState × Response :=
  (s, .coursesOut s.courses_db)

/-- `add_course` (`app.py` lines 162-169). -/
def add_course (s : AppState) (course_data : CourseIn) : AppState × Response :=
  let new_course : CourseRec :=
    { id := s.next_course_id
      title := course_data.title
      code := course_data.code
      credits := course_data.credits }
  ({ s with
      courses_db := s.courses_db ++ [new_course]
      next_course_id := s.next_course_id + 1 },
   .courseOut new_course)

/-- `get_course` (`app.py` lines 171-176). -/
def get_course (s : AppState) (course_id : Int) : AppState × Response :=
  match s.courses_db.find? (fun c => c.id == course_id) with
  | some c => (s, .courseOut c)
  | none => (s, .httpError { status := 404, detail := "Course not found", headers := [] })

/-- The in-place merge of `update_course` (`app.py` lines 182-185), with the
`id` key deleted from the `exclude_unset` dict. -/
def mergeCourse (c : CourseRec) (course_data : CourseIn) : CourseRec :=
  { c with
      title := if course_data.title_set then course_data.title else c.title
      code := if course_data.code_set then course_data.code else c.code
      credits := if course_data.credits_set then course_data.credits else c.credits }

/-- The scan-and-update loop of `update_course` on the raw list. -/
def updateFirstCourse (db : List CourseRec) (course_id : Int)
    (course_data : CourseIn) : Option (List CourseRec × CourseRec) :=
  match db with
  | [] => none
  | c :: rest =>
    if c.id == course_id then
      let c' := mergeCourse c course_data
      some (c' :: rest, c')
    else
      match updateFirstCourse rest course_id course_data with
      | none => none
      | some (rest', ret) => some (c :: rest', ret)

/-- `update_course` (`app.py` lines 178-187). -/
def update_course (s : AppState) (course_id : Int) (course_data : CourseIn) :
    AppState × Response :=
  match updateFirstCourse s.courses_db course_id course_data with
  | some (db', ret) => ({ s with courses_db := db' }, .courseOut ret)
  | none => (s, .httpError { status := 404, detail := "Course not found", headers := [] })

/-- `delete_course` (`app.py` lines 189-196). -/
def delete_course (s : AppState) (course_id : Int) : AppState × Response :=
  let initial_len := s.courses_db.length
  let s' := { s with courses_db := s.courses_db.filter (fun c => c.id != course_id) }
  if s'.courses_db.length == initial_len then
    (s', .httpError { status := 404, detail := "Course not found", headers := [] })
  else
    (s', .noContent)

/-- `get_enrollments` (`app.py` lines 199-201). -/
def get_enrollments (s : AppState) : AppState × Response :=
  (s, .enrollmentsOut s.enrollments_db)

/-- `add_enrollment` (`app.py` lines 203-218): existence checks on the
referenced student and course ids, in that order, both before the append;
the error details interpolate the missing id. -/
def add_enrollment (s : AppState) (enrollment_data : EnrollmentIn) :
    AppState × Response :=
  let student_exists := s.students_db.any (fun st => st.id == enrollment_data.student_id)
  let course_exists := s.courses_db.any (fun c => c.id == enrollment_data.course_id)
  if !student_exists then
    (s, .httpError
      { status := 404
        detail := "Student with ID " ++ toString enrollment_data.student_id ++ " not found"
        headers := [] })
  else if !course_exists then
    (s, .httpError
      { status := 404
        detail := "Course with ID " ++ toString enrollment_data.course_id ++ " not found"
        headers := [] })
  else
    let new_enrollment : EnrollmentRec :=
      { id := s.next_enrollment_id
        student_id := enrollment_data.student_id
        course_id := enrollment_data.course_id }
    ({ s with
        enrollments_db := s.enrollments_db ++ [new_enrollment]
        next_enrollment_id := s.next_enrollment_id + 1 },
     .enrollmentOut new_enrollment)

/-- `get_enrollment` (`app.py` lines 220-225). -/
def get_enrollment (s : AppState) (enrollment_id : Int) : AppState × Response :=
  match s.enrollments_db.find? (fun e => e.id == enrollment_id) with
  | some e => (s, .enrollmentOut e)
  | none => (s, .httpError { status := 404, detail := "Enrollment not found", headers := [] })

/-- `delete_enrollment` (`app.py` lines 227-234). -/
def delete_enrollment (s : AppState) (enrollment_id : Int) : AppState × Response :=
  let initial_len := s.enrollments_db.length
  let s' := { s with
    enrollments_db := s.enrollments_db.filter (fun e => e.id != enrollment_id) }
  if s'.enrollments_db.length == initial_len then
    (s', .httpError { status := 404, detail := "Enrollment not found", headers := [] })
  else
    (s', .noContent)

/-- One HTTP request to the API surface: a routed endpoint with its decoded
path/body arguments. -/
inductive Request where
  | homeReq
  | tokenReq (username password : String)
  | getStudents
  | postStudents (p : StudentIn)
  | getStudent (student_id : Int)
  | putStudent (student_id : Int) (p : StudentIn)
  | delStudent (student_id : Int)
  | getCourses
  | postCourses (p : CourseIn)
  | getCourse (course_id : Int)
  | putCourse (course_id : Int) (p : CourseIn)
  | delCourse (course_id : Int)
  | getEnrollments
  | postEnrollments (p : EnrollmentIn)
  | getEnrollment (enrollment_id : Int)
  | delEnrollment (enrollment_id : Int)
deriving Repr, DecidableEq

/-- Which endpoints carry the `Depends(get_current_user)` parameter: all of
them except the home route and `POST /token`. -/
def requiresAuth : Request → Bool
  | .homeReq => false
  | .tokenReq _ _ => false
  | _ => true

/-- `OAuth2PasswordBearer`'s rejection when no bearer credential is presented
(FastAPI `auto_error=True` default): 401 with a bearer challenge header. -/
def not_authenticated : HTTPError :=
  { status := 401
    detail := "Not authenticated"
    headers := [("WWW-Authenticate", "Bearer")] }

/-- The auth gate as FastAPI runs it before a protected handler body: the
`oauth2_scheme` dependency extracts the bearer token (401 with a bearer
challenge when absent), then `get_current_user` validates it. -/
def authGate (tok : Option JwtToken) (now : Nat) : Except HTTPError String :=
  match tok with
  | none => .error not_authenticated
  | some t => get_current_user t now

/-- Handler-body dispatch once authentication (where required) succeeded. -/
def dispatch (s : AppState) (req : Request) (now : Nat) : AppState × Response :=
  match req with
  | .homeReq => home s
  | .tokenReq u p =>
    match login_for_access_token u p now with
    | .ok t => (s, .tokenOut t)
    | .error e => (s, .httpError e)
  | .getStudents => get_students s
  | .postStudents p => add_student s p
  | .getStudent i => get_student s i
  | .putStudent i p => update_student s i p
  | .delStudent i => delete_student s i
  | .getCourses => get_courses s
  | .postCourses p => add_course s p
  | .getCourse i => get_course s i
  | .putCourse i p => update_course s i p
  | .delCourse i => delete_course s i
  | .getEnrollments => get_enrollments s
  | .postEnrollments p => add_enrollment s p
  | .getEnrollment i => get_enrollment s i
  | .delEnrollment i => delete_enrollment s i

/-- Full request handling: run the auth gate first on protected endpoints,
rejecting with its error (state untouched) before the handler body runs. -/
def handle (s : AppState) (req : Request) (tok : Option JwtToken) (now : Nat) :
    AppState × Response :=
  if requiresAuth req then
    match authGate tok now with
    | .error e => (s, .httpError e)
    | .ok _ => dispatch s req now
  else
    dispatch s req now

/-- One request together with its presented credential and arrival time. -/
structure StepIn where
  req : Request
  tok : Option JwtToken
  now : Nat

/-- The ids handed out to created student records along a request trace: for
each `POST /students` that returns a created record, that record's id. -/
def assignedStudentIds (s : AppState) : List StepIn → List Int
  | [] => []
  | i :: rest =>
    let out := handle s i.req i.tok i.now
    (match i.req, out.2 with
     | .postStudents _, .studentOut r => [r.id]
     | _, _ => []) ++ assignedStudentIds out.1 rest

/-- The ids handed out to created course records along a request trace. -/
def assignedCourseIds (s : AppState) : List StepIn → List Int
  | [] => []
  | i :: rest =>
    let out := handle s i.req i.tok i.now
    (match i.req, out.2 with
     | .postCourses _, .courseOut r => [r.id]
     | _, _ => []) ++ assignedCourseIds out.1 rest

/-- The ids handed out to created enrollment records along a request trace. -/
def assignedEnrollmentIds (s : AppState) : List StepIn → List Int
  | [] => []
  | i :: rest =>
    let out := handle s i.req i.tok i.now
    (match i.req, out.2 with
     | .postEnrollments _, .enrollmentOut r => [r.id]
     | _, _ => []) ++ assignedEnrollmentIds out.1 rest

/-- Is the request the create operation of the student collection? -/
def isCreateStudent : Request → Bool
  | .postStudents _ => true
  | _ => false

/-- Is the request the create operation of the course collection? -/
def isCreateCourse : Request → Bool
  | .postCourses _ => true
  | _ => false

/-- Is the request the create operation of the enrollment collection? -/
def isCreateEnrollment : Request → Bool
  | .postEnrollments _ => true
  | _ => false

/-- Is the request a delete operation (any collection)? -/
def isDelete : Request → Bool
  | .delStudent _ => true
  | .delCourse _ => true
  | .delEnrollment _ => true
  | _ => false

/-- The ids assigned by a pure sequence of `POST /students` handler calls
(no auth gate, no other operations interleaved), in call order. -/
def studentCreateIds (s : AppState) : List StudentIn → List Int
  | [] => []
  | p :: ps =>
    let out := add_student s p
    (match out.2 with
     | .studentOut r => [r.id]
     | _ => []) ++ studentCreateIds out.1 ps

/-- The ids assigned by a pure sequence of `POST /courses` handler calls. -/
def courseCreateIds (s : AppState) : List CourseIn → List Int
  | [] => []
  | p :: ps =>
    let out := add_course s p
    (match out.2 with
     | .courseOut r => [r.id]
     | _ => []) ++ courseCreateIds out.1 ps

/-- C2: for the valid credential pair, `IssueToken` (the `/token` endpoint)
followed immediately by `Authenticate` (`get_current_user`, at the same
time instant) succeeds and returns the original username. -/
theorem C2_issue_then_authenticate (now : Nat) (t : Token)
    (h : login_for_access_token VALID_USERNAME VALID_PASSWORD now = .ok t) :
    get_current_user t.access_token now = .ok VALID_USERNAME := by
  simp only [login_for_access_token, ne_eq, not_true_eq_false, or_self, if_false,
    Except.ok.injEq] at h
  subst h
  simp [get_current_user, create_access_token, jwtDecode, VALID_USERNAME]

/-- Closed witness for C2: issuing at time 0 and authenticating at time 0
returns `"admin"` for the concrete token the login endpoint computes. -/
theorem C2_issue_then_authenticate_witness :
    get_current_user
      (JwtToken.signed { sub := some "admin", exp := some 3600 } SECRET_KEY) 0 =
      .ok VALID_USERNAME :=
  C2_issue_then_authenticate 0
    { access_token := JwtToken.signed { sub := some "admin", exp := some 3600 } SECRET_KEY
      token_type := "bearer" }
    (by simp [login_for_access_token, create_access_token, VALID_USERNAME,
      VALID_PASSWORD, ACCESS_TOKEN_EXPIRE_MINUTES])

/-- C5: a well-formed token whose encoded expiry lies in the past fails
authentication with the 401 `credentials_exception`, whatever key it was
signed with (valid signature, i.e. `SECRET_KEY`, or any other). -/
theorem C5_expired_token_unauthorized (c : Claims) (k : String) (e now : Nat)
    (hexp : c.exp = some e) (hpast : e < now) :
    get_current_user (JwtToken.signed c k) now = .error credentials_exception ∧
      credentials_exception.status = 401 := by
  refine ⟨?_, rfl⟩
  unfold get_current_user jwtDecode
  by_cases hk : k = SECRET_KEY
  · simp [hk, hexp, hpast]
  · simp [hk]

/-- Closed witness for C5: a token with expiry 5 validated at time 10 is
rejected, both when signed with the real key and when signed with another. -/
theorem C5_expired_token_unauthorized_witness :
    get_current_user (JwtToken.signed { sub := some "admin", exp := some 5 } SECRET_KEY) 10 =
        .error credentials_exception ∧
      get_current_user (JwtToken.signed { sub := some "admin", exp := some 5 } "other-key") 10 =
        .error credentials_exception :=
  ⟨(C5_expired_token_unauthorized { sub := some "admin", exp := some 5 } SECRET_KEY 5 10
      rfl (by decide)).1,
   (C5_expired_token_unauthorized { sub := some "admin", exp := some 5 } "other-key" 5 10
      rfl (by decide)).1⟩

/-- C7: token issuance succeeds exactly on the fixed credential pair, and on
any mismatch fails with one fixed 401 error value — the same value whichever
of username or password (or both) is wrong, so the error does not
distinguish the two cases. -/
theorem C7_login_iff_fixed_credentials (u p : String) (now : Nat) :
    ((∃ t, login_for_access_token u p now = .ok t) ↔
        u = VALID_USERNAME ∧ p = VALID_PASSWORD) ∧
      (u ≠ VALID_USERNAME ∨ p ≠ VALID_PASSWORD →
        login_for_access_token u p now =
          .error { status := 401
                   detail := "Incorrect username or password"
                   headers := [("WWW-Authenticate", "Bearer")] }) := by
  constructor
  · constructor
    · rintro ⟨t, ht⟩
      unfold login_for_access_token at ht
      split at ht
      · exact absurd ht (by simp)
      · rename_i hcond
        push_neg at hcond
        exact hcond
    · rintro ⟨hu, hp⟩
      subst hu; subst hp
      exact ⟨{ access_token :=
                 create_access_token { sub := some VALID_USERNAME, exp := none } now
                   (some (ACCESS_TOKEN_EXPIRE_MINUTES * 60))
               token_type := "bearer" },
             by simp [login_for_access_token]⟩
  · intro hmis
    unfold login_for_access_token
    split
    · rfl
    · rename_i hcond
      push_neg at hcond
      rcases hmis with h | h
      · exact absurd hcond.1 h
      · exact absurd hcond.2 h

/-- Closed witness for C7: a wrong password is rejected with the fixed 401,
a wrong username is rejected with the identical 401, and the valid pair is
accepted. -/
theorem C7_login_iff_fixed_credentials_witness :
    login_for_access_token "admin" "wrong" 0 =
        .error { status := 401
                 detail := "Incorrect username or password"
                 headers := [("WWW-Authenticate", "Bearer")] } ∧
      login_for_access_token "eve" "password123" 0 =
        .error { status := 401
                 detail := "Incorrect username or password"
                 headers := [("WWW-Authenticate", "Bearer")] } ∧
      ∃ t, login_for_access_token "admin" "password123" 0 = .ok t :=
  ⟨(C7_login_iff_fixed_credentials "admin" "wrong" 0).2 (Or.inr (by decide)),
   (C7_login_iff_fixed_credentials "eve" "password123" 0).2 (Or.inl (by decide)),
   (C7_login_iff_fixed_credentials "admin" "password123" 0).1.mpr ⟨rfl, rfl⟩⟩

/-- The student update loop touches exactly the first matching record: the
prefix scanned past has no matching id, the match is merged in place, the
suffix is untouched. -/
theorem updateFirstStudent_spec (db : List StudentRec) (sid : Int) (p : StudentIn)
    (db' : List StudentRec) (r' : StudentRec)
    (h : updateFirstStudent db sid p = some (db', r')) :
    ∃ l₁ old l₂, db = l₁ ++ old :: l₂ ∧ (∀ x ∈ l₁, x.id ≠ sid) ∧ old.id = sid ∧
      r' = mergeStudent old p ∧ db' = l₁ ++ r' :: l₂ := by
  induction db generalizing db' r' with
  | nil => simp [updateFirstStudent] at h
  | cons st rest ih =>
    unfold updateFirstStudent at h
    by_cases hid : st.id = sid
    · simp only [hid, beq_self_eq_true, if_true, Option.some.injEq, Prod.mk.injEq] at h
      exact ⟨[], st, rest, by simp, by simp, hid, h.2.symm,
        by simp [← h.1, ← h.2]⟩
    · simp only [beq_iff_eq, hid, if_false] at h
      cases hrec : updateFirstStudent rest sid p with
      | none => rw [hrec] at h; exact absurd h (by simp)
      | some val =>
        obtain ⟨rest', ret⟩ := val
        rw [hrec] at h
        simp only [Option.some.injEq, Prod.mk.injEq] at h
        obtain ⟨hdb', hr'⟩ := h
        obtain ⟨l₁, old, l₂, hsplit, hpre, hold, hmerge, hres⟩ := ih rest' ret hrec
        exact ⟨st :: l₁, old, l₂, by simp [hsplit],
          by simpa [hid] using hpre, hold, hr' ▸ hmerge,
          by simp [← hdb', hres, hr']⟩

/-- The course update loop touches exactly the first matching record. -/
theorem updateFirstCourse_spec (db : List CourseRec) (cid : Int) (p : CourseIn)
    (db' : List CourseRec) (r' : CourseRec)
    (h : updateFirstCourse db cid p = some (db', r')) :
    ∃ l₁ old l₂, db = l₁ ++ old :: l₂ ∧ (∀ x ∈ l₁, x.id ≠ cid) ∧ old.id = cid ∧
      r' = mergeCourse old p ∧ db' = l₁ ++ r' :: l₂ := by
  induction db generalizing db' r' with
  | nil => simp [updateFirstCourse] at h
  | cons c rest ih =>
    unfold updateFirstCourse at h
    by_cases hid : c.id = cid
    · simp only [hid, beq_self_eq_true, if_true, Option.some.injEq, Prod.mk.injEq] at h
      exact ⟨[], c, rest, by simp, by simp, hid, h.2.symm,
        by simp [← h.1, ← h.2]⟩
    · simp only [beq_iff_eq, hid, if_false] at h
      cases hrec : updateFirstCourse rest cid p with
      | none => rw [hrec] at h; exact absurd h (by simp)
      | some val =>
        obtain ⟨rest', ret⟩ := val
        rw [hrec] at h
        simp only [Option.some.injEq, Prod.mk.injEq] at h
        obtain ⟨hdb', hr'⟩ := h
        obtain ⟨l₁, old, l₂, hsplit, hpre, hold, hmerge, hres⟩ := ih rest' ret hrec
        exact ⟨c :: l₁, old, l₂, by simp [hsplit],
          by simpa [hid] using hpre, hold, hr' ▸ hmerge,
          by simp [← hdb', hres, hr']⟩

/-- C1: a successful `Update(id, payload)` on a Student or Course replaces
exactly the first stored record whose id matches: its `id` is kept verbatim
(whatever `id` the payload carries, set or not), each field explicitly
present in the payload overwrites the stored value, and each field absent
from the payload retains its prior value; the rest of the collection is
untouched. -/
theorem C1_update_merges_only_present_fields :
    (∀ (s : AppState) (sid : Int) (p : StudentIn) (s' : AppState) (r' : StudentRec),
      update_student s sid p = (s', .studentOut r') →
      ∃ l₁ old l₂,
        s.students_db = l₁ ++ old :: l₂ ∧ old.id = sid ∧
        s'.students_db = l₁ ++ r' :: l₂ ∧
        r'.id = old.id ∧
        r'.major = (if p.major_set then p.major else old.major) ∧
        r'.email = (if p.email_set then p.email else old.email)) ∧
    (∀ (s : AppState) (cid : Int) (p : CourseIn) (s' : AppState) (r' : CourseRec),
      update_course s cid p = (s', .courseOut r') →
      ∃ l₁ old l₂,
        s.courses_db = l₁ ++ old :: l₂ ∧ old.id = cid ∧
        s'.courses_db = l₁ ++ r' :: l₂ ∧
        r'.id = old.id ∧
        r'.title = (if p.title_set then p.title else old.title) ∧
        r'.code = (if p.code_set then p.code else old.code) ∧
        r'.credits = (if p.credits_set then p.credits else old.credits)) := by
  constructor
  · intro s sid p s' r' h
    unfold update_student at h
    cases hu : updateFirstStudent s.students_db sid p with
    | none => rw [hu] at h; exact absurd h (by simp)
    | some val =>
      obtain ⟨db', ret⟩ := val
      rw [hu] at h
      simp only [Prod.mk.injEq, Response.studentOut.injEq] at h
      obtain ⟨hs', hret⟩ := h
      obtain ⟨l₁, old, l₂, hsplit, _, hold, hmerge, hres⟩ :=
        updateFirstStudent_spec s.students_db sid p db' ret hu
      subst hret
      exact ⟨l₁, old, l₂, hsplit, hold, by simp [← hs', hres],
        by simp [hmerge, mergeStudent], by simp [hmerge, mergeStudent],
        by simp [hmerge, mergeStudent]⟩
  · intro s cid p s' r' h
    unfold update_course at h
    cases hu : updateFirstCourse s.courses_db cid p with
    | none => rw [hu] at h; exact absurd h (by simp)
    | some val =>
      obtain ⟨db', ret⟩ := val
      rw [hu] at h
      simp only [Prod.mk.injEq, Response.courseOut.injEq] at h
      obtain ⟨hs', hret⟩ := h
      obtain ⟨l₁, old, l₂, hsplit, _, hold, hmerge, hres⟩ :=
        updateFirstCourse_spec s.courses_db cid p db' ret hu
      subst hret
      exact ⟨l₁, old, l₂, hsplit, hold, by simp [← hs', hres],
        by simp [hmerge, mergeCourse], by simp [hmerge, mergeCourse],
        by simp [hmerge, mergeCourse], by simp [hmerge, mergeCourse]⟩

/-- Closed witness for C1: updating student 1 with a payload that sets
`major` (to `"Math"`), leaves `email` unset, and even carries `id := 99`,
yields a record that keeps id 1 and the stored email. -/
theorem C1_update_merges_only_present_fields_witness :
    ∃ l₁ old l₂,
      ({ initState with
          students_db := [{ id := 1, major := "CS", email := "a@b.com" }],
          next_student_id := 2 } : AppState).students_db = l₁ ++ old :: l₂ ∧
      old.id = 1 ∧
      ({ initState with
          students_db := [{ id := 1, major := "Math", email := "a@b.com" }],
          next_student_id := 2 } : AppState).students_db =
        l₁ ++ ({ id := 1, major := "Math", email := "a@b.com" } : StudentRec) :: l₂ ∧
      ({ id := 1, major := "Math", email := "a@b.com" } : StudentRec).id = old.id ∧
      ({ id := 1, major := "Math", email := "a@b.com" } : StudentRec).major =
        (if ({ id := some 99, major := "Math", email := "zzz", id_set := true,
               major_set := true, email_set := false } : StudentIn).major_set
          then "Math" else old.major) ∧
      ({ id := 1, major := "Math", email := "a@b.com" } : StudentRec).email =
        (if ({ id := some 99, major := "Math", email := "zzz", id_set := true,
               major_set := true, email_set := false } : StudentIn).email_set
          then "zzz" else old.email) :=
  C1_update_merges_only_present_fields.1
    { initState with
        students_db := [{ id := 1, major := "CS", email := "a@b.com" }],
        next_student_id := 2 }
    1
    { id := some 99, major := "Math", email := "zzz", id_set := true,
      major_set := true, email_set := false }
    { initState with
        students_db := [{ id := 1, major := "Math", email := "a@b.com" }],
        next_student_id := 2 }
    { id := 1, major := "Math", email := "a@b.com" }
    (by simp [update_student, updateFirstStudent, mergeStudent, initState])

/-- C3: enrollment creation fails with a 404 naming the missing student id
when the referenced student does not exist, fails with a 404 naming the
missing course id when the student exists but the course does not — in both
cases returning the state unchanged, so nothing is appended — and when both
references exist it appends exactly one record to the enrollment
collection. -/
theorem C3_enrollment_integrity :
    (∀ (s : AppState) (p : EnrollmentIn),
      (∀ st ∈ s.students_db, st.id ≠ p.student_id) →
      add_enrollment s p =
        (s, .httpError
          { status := 404
            detail := "Student with ID " ++ toString p.student_id ++ " not found"
            headers := [] })) ∧
    (∀ (s : AppState) (p : EnrollmentIn),
      (∃ st ∈ s.students_db, st.id = p.student_id) →
      (∀ c ∈ s.courses_db, c.id ≠ p.course_id) →
      add_enrollment s p =
        (s, .httpError
          { status := 404
            detail := "Course with ID " ++ toString p.course_id ++ " not found"
            headers := [] })) ∧
    (∀ (s : AppState) (p : EnrollmentIn),
      (∃ st ∈ s.students_db, st.id = p.student_id) →
      (∃ c ∈ s.courses_db, c.id = p.course_id) →
      (add_enrollment s p).1.enrollments_db =
        s.enrollments_db ++
          [{ id := s.next_enrollment_id
             student_id := p.student_id
             course_id := p.course_id }]) := by
  refine ⟨?_, ?_, ?_⟩
  · intro s p h
    have hs : s.students_db.any (fun st => st.id == p.student_id) = false := by
      simp only [List.any_eq_false, beq_iff_eq]
      exact h
    simp [add_enrollment, hs]
  · intro s p hst hc
    have hs : s.students_db.any (fun st => st.id == p.student_id) = true := by
      simp only [List.any_eq_true, beq_iff_eq]
      exact hst
    have hcf : s.courses_db.any (fun c => c.id == p.course_id) = false := by
      simp only [List.any_eq_false, beq_iff_eq]
      exact hc
    simp [add_enrollment, hs, hcf]
  · intro s p hst hc
    have hs : s.students_db.any (fun st => st.id == p.student_id) = true := by
      simp only [List.any_eq_true, beq_iff_eq]
      exact hst
    have hcc : s.courses_db.any (fun c => c.id == p.course_id) = true := by
      simp only [List.any_eq_true, beq_iff_eq]
      exact hc
    simp [add_enrollment, hs, hcc]

/-- Closed witness for C3: on the empty state, enrolling student 5 fails
naming student 5; with student 1 present but course 7 absent, it fails
naming course 7; with student 1 and course 2 present, exactly the one new
record `{id 1, 1, 2}` is appended. -/
theorem C3_enrollment_integrity_witness :
    add_enrollment initState { id := none, student_id := 5, course_id := 7 } =
        (initState, .httpError
          { status := 404, detail := "Student with ID 5 not found", headers := [] }) ∧
      add_enrollment
          { initState with
              students_db := [{ id := 1, major := "CS", email := "a@b.com" }] }
          { id := none, student_id := 1, course_id := 7 } =
        ({ initState with
            students_db := [{ id := 1, major := "CS", email := "a@b.com" }] },
         .httpError
          { status := 404, detail := "Course with ID 7 not found", headers := [] }) ∧
      (add_enrollment
          { initState with
              students_db := [{ id := 1, major := "CS", email := "a@b.com" }],
              courses_db := [{ id := 2, title := "Calc", code := "M101", credits := 3 }] }
          { id := none, student_id := 1, course_id := 2 }).1.enrollments_db =
        [{ id := 1, student_id := 1, course_id := 2 }] := by
  refine ⟨?_, ?_, ?_⟩
  · have := C3_enrollment_integrity.1 initState
      { id := none, student_id := 5, course_id := 7 } (by simp [initState])
    simpa using this
  · have := C3_enrollment_integrity.2.1
      { initState with
          students_db := [{ id := 1, major := "CS", email := "a@b.com" }] }
      { id := none, student_id := 1, course_id := 7 }
      (by simp) (by simp [initState])
    simpa using this
  · have := C3_enrollment_integrity.2.2
      { initState with
          students_db := [{ id := 1, major := "CS", email := "a@b.com" }],
          courses_db := [{ id := 2, title := "Calc", code := "M101", credits := 3 }] }
      { id := none, student_id := 1, course_id := 2 }
      (by simp) (by simp)
    simpa [initState] using this

/-- C10: when both the referenced student id and course id are absent, the
student existence check fires first, so the 404 names the missing student
id (and the state is unchanged). -/
theorem C10_student_check_precedence (s : AppState) (p : EnrollmentIn)
    (hst : ∀ st ∈ s.students_db, st.id ≠ p.student_id)
    (_hc : ∀ c ∈ s.courses_db, c.id ≠ p.course_id) :
    add_enrollment s p =
      (s, .httpError
        { status := 404
          detail := "Student with ID " ++ toString p.student_id ++ " not found"
          headers := [] }) := by
  have hs : s.students_db.any (fun st => st.id == p.student_id) = false := by
    simp only [List.any_eq_false, beq_iff_eq]
    exact hst
  simp [add_enrollment, hs]

/-- Closed witness for C10: with both collections empty, enrolling student 5
in course 7 reports student 5, not course 7. -/
theorem C10_student_check_precedence_witness :
    add_enrollment initState { id := none, student_id := 5, course_id := 7 } =
      (initState, .httpError
        { status := 404, detail := "Student with ID 5 not found", headers := [] }) := by
  have := C10_student_check_precedence initState
    { id := none, student_id := 5, course_id := 7 }
    (by simp [initState]) (by simp [initState])
  simpa using this

/-- The state component of `delete_student` is always the filtered state,
whichever branch is taken. -/
theorem delete_student_fst (s : AppState) (sid : Int) :
    (delete_student s sid).1 =
      { s with students_db := s.students_db.filter (fun st => st.id != sid) } := by
  unfold delete_student
  dsimp only
  split <;> rfl

/-- The state component of `delete_course` is always the filtered state. -/
theorem delete_course_fst (s : AppState) (cid : Int) :
    (delete_course s cid).1 =
      { s with courses_db := s.courses_db.filter (fun c => c.id != cid) } := by
  unfold delete_course
  dsimp only
  split <;> rfl

/-- The state component of `delete_enrollment` is always the filtered state. -/
theorem delete_enrollment_fst (s : AppState) (eid : Int) :
    (delete_enrollment s eid).1 =
      { s with enrollments_db := s.enrollments_db.filter (fun e => e.id != eid) } := by
  unfold delete_enrollment
  dsimp only
  split <;> rfl

/-- Deleting a student id with no matching record: 404, state unchanged. -/
theorem delete_student_no_match (s : AppState) (sid : Int)
    (h : ∀ st ∈ s.students_db, st.id ≠ sid) :
    delete_student s sid =
      (s, .httpError { status := 404, detail := "Student not found", headers := [] }) := by
  have hfilter : s.students_db.filter (fun st => st.id != sid) = s.students_db :=
    List.filter_eq_self.mpr (fun a ha => by simpa [bne_iff_ne] using h a ha)
  simp [delete_student, hfilter]

/-- Deleting a course id with no matching record: 404, state unchanged. -/
theorem delete_course_no_match (s : AppState) (cid : Int)
    (h : ∀ c ∈ s.courses_db, c.id ≠ cid) :
    delete_course s cid =
      (s, .httpError { status := 404, detail := "Course not found", headers := [] }) := by
  have hfilter : s.courses_db.filter (fun c => c.id != cid) = s.courses_db :=
    List.filter_eq_self.mpr (fun a ha => by simpa [bne_iff_ne] using h a ha)
  simp [delete_course, hfilter]

/-- Deleting an enrollment id with no matching record: 404, state unchanged. -/
theorem delete_enrollment_no_match (s : AppState) (eid : Int)
    (h : ∀ e ∈ s.enrollments_db, e.id ≠ eid) :
    delete_enrollment s eid =
      (s, .httpError { status := 404, detail := "Enrollment not found", headers := [] }) := by
  have hfilter : s.enrollments_db.filter (fun e => e.id != eid) = s.enrollments_db :=
    List.filter_eq_self.mpr (fun a ha => by simpa [bne_iff_ne] using h a ha)
  simp [delete_enrollment, hfilter]

/-- C8: on each collection, `Delete(id)` with no matching record (never
created or already deleted) fails with 404 and returns the state unchanged;
and after any delete of an id, deleting the same id again always fails with
404 without further state change — a delete of a given id succeeds at most
once between creations. -/
theorem C8_delete_not_found_idempotent :
    (∀ (s : AppState) (i : Int), (∀ st ∈ s.students_db, st.id ≠ i) →
      delete_student s i =
        (s, .httpError { status := 404, detail := "Student not found", headers := [] })) ∧
    (∀ (s : AppState) (i : Int),
      delete_student (delete_student s i).1 i =
        ((delete_student s i).1,
         .httpError { status := 404, detail := "Student not found", headers := [] })) ∧
    (∀ (s : AppState) (i : Int), (∀ c ∈ s.courses_db, c.id ≠ i) →
      delete_course s i =
        (s, .httpError { status := 404, detail := "Course not found", headers := [] })) ∧
    (∀ (s : AppState) (i : Int),
      delete_course (delete_course s i).1 i =
        ((delete_course s i).1,
         .httpError { status := 404, detail := "Course not found", headers := [] })) ∧
    (∀ (s : AppState) (i : Int), (∀ e ∈ s.enrollments_db, e.id ≠ i) →
      delete_enrollment s i =
        (s, .httpError { status := 404, detail := "Enrollment not found", headers := [] })) ∧
    (∀ (s : AppState) (i : Int),
      delete_enrollment (delete_enrollment s i).1 i =
        ((delete_enrollment s i).1,
         .httpError { status := 404, detail := "Enrollment not found", headers := [] })) := by
  refine ⟨delete_student_no_match, ?_, delete_course_no_match, ?_,
    delete_enrollment_no_match, ?_⟩
  · intro s i
    apply delete_student_no_match
    intro st hst
    rw [delete_student_fst] at hst
    have := List.of_mem_filter hst
    simpa [bne_iff_ne] using this
  · intro s i
    apply delete_course_no_match
    intro c hc
    rw [delete_course_fst] at hc
    have := List.of_mem_filter hc
    simpa [bne_iff_ne] using this
  · intro s i
    apply delete_enrollment_no_match
    intro e he
    rw [delete_enrollment_fst] at he
    have := List.of_mem_filter he
    simpa [bne_iff_ne] using this

/-- Closed witness for C8: on a state holding exactly student 1, deleting
student 7 fails with 404 leaving the state unchanged, and deleting
student 1 twice ends in a 404 the second time. -/
theorem C8_delete_not_found_idempotent_witness :
    delete_student { initState with
        students_db := [{ id := 1, major := "CS", email := "a@b.com" }] } 7 =
      ({ initState with
          students_db := [{ id := 1, major := "CS", email := "a@b.com" }] },
       .httpError { status := 404, detail := "Student not found", headers := [] }) ∧
    delete_student
        (delete_student { initState with
            students_db := [{ id := 1, major := "CS", email := "a@b.com" }] } 1).1 1 =
      ((delete_student { initState with
          students_db := [{ id := 1, major := "CS", email := "a@b.com" }] } 1).1,
       .httpError { status := 404, detail := "Student not found", headers := [] }) :=
  ⟨C8_delete_not_found_idempotent.1
      { initState with students_db := [{ id := 1, major := "CS", email := "a@b.com" }] } 7
      (by simp),
   C8_delete_not_found_idempotent.2.1
      { initState with students_db := [{ id := 1, major := "CS", email := "a@b.com" }] } 1⟩

/-- Ids assigned by a run of student creates from any state: the counter
value, then its successors, one per call. -/
theorem studentCreateIds_eq (ps : List StudentIn) (s : AppState) :
    studentCreateIds s ps =
      (List.range ps.length).map (fun i : Nat => s.next_student_id + (i : Int)) := by
  induction ps generalizing s with
  | nil => simp [studentCreateIds]
  | cons p ps ih =>
    simp only [studentCreateIds, add_student]
    rw [ih]
    simp only [List.length_cons, List.range_succ_eq_map, List.map_cons, List.map_map,
      List.singleton_append]
    congr 1
    · simp
    · congr 1
      funext i
      simp only [Function.comp_apply, Nat.succ_eq_add_one]
      push_cast
      ring

/-- Ids assigned by a run of course creates from any state. -/
theorem courseCreateIds_eq (ps : List CourseIn) (s : AppState) :
    courseCreateIds s ps =
      (List.range ps.length).map (fun i : Nat => s.next_course_id + (i : Int)) := by
  induction ps generalizing s with
  | nil => simp [courseCreateIds]
  | cons p ps ih =>
    simp only [courseCreateIds, add_course]
    rw [ih]
    simp only [List.length_cons, List.range_succ_eq_map, List.map_cons, List.map_map,
      List.singleton_append]
    congr 1
    · simp
    · congr 1
      funext i
      simp only [Function.comp_apply, Nat.succ_eq_add_one]
      push_cast
      ring

/-- C4: starting from the initial state, a sequence of N create calls on the
student (resp. course) collection assigns exactly the ids 1..N in call
order; and each create stores and returns the record whose id is the current
counter value and whose other fields come from the payload — the payload's
`id` field does not occur in the result at all, so it is ignored and
overwritten by the counter. -/
theorem C4_sequential_create_ids :
    (∀ ps : List StudentIn,
      studentCreateIds initState ps =
        (List.range ps.length).map (fun i : Nat => (1 : Int) + (i : Int))) ∧
    (∀ ps : List CourseIn,
      courseCreateIds initState ps =
        (List.range ps.length).map (fun i : Nat => (1 : Int) + (i : Int))) ∧
    (∀ (s : AppState) (p : StudentIn),
      add_student s p =
        ({ s with
            students_db := s.students_db ++
              [{ id := s.next_student_id, major := p.major, email := p.email }]
            next_student_id := s.next_student_id + 1 },
         .studentOut { id := s.next_student_id, major := p.major, email := p.email })) ∧
    (∀ (s : AppState) (p : CourseIn),
      add_course s p =
        ({ s with
            courses_db := s.courses_db ++
              [{ id := s.next_course_id, title := p.title, code := p.code,
                 credits := p.credits }]
            next_course_id := s.next_course_id + 1 },
         .courseOut { id := s.next_course_id, title := p.title, code := p.code,
                      credits := p.credits })) := by
  refine ⟨?_, ?_, fun s p => rfl, fun s p => rfl⟩
  · intro ps
    rw [studentCreateIds_eq]
    rfl
  · intro ps
    rw [courseCreateIds_eq]
    rfl

/-- `get_current_user` fails only with the one fixed `credentials_exception`. -/
theorem get_current_user_error (t : JwtToken) (now : Nat) (e : HTTPError)
    (h : get_current_user t now = .error e) : e = credentials_exception := by
  unfold get_current_user at h
  split at h
  · exact (Except.error.injEq _ _).mp h.symm
  · split at h
    · exact (Except.error.injEq _ _).mp h.symm
    · split at h
      · exact (Except.error.injEq _ _).mp h.symm
      · exact absurd h (by simp)

/-- Any error out of the auth gate is a 401 carrying the bearer challenge. -/
theorem authGate_error_shape (tok : Option JwtToken) (now : Nat) (e : HTTPError)
    (h : authGate tok now = .error e) :
    e.status = 401 ∧ ("WWW-Authenticate", "Bearer") ∈ e.headers := by
  cases tok with
  | none =>
    have : e = not_authenticated := by
      simpa [authGate, not_authenticated] using h.symm
    subst this
    exact ⟨rfl, by simp [not_authenticated]⟩
  | some t =>
    have : e = credentials_exception := get_current_user_error t now e (by simpa [authGate] using h)
    subst this
    exact ⟨rfl, by simp [credentials_exception]⟩

/-- C9: every endpoint except the root greeting and token issuance runs the
auth gate; when the gate fails, the request is answered with that 401
bearer-challenge error and the state is returned exactly unchanged — the
handler body (and so any store mutation) never runs. -/
theorem C9_auth_gate_guards_all_operations :
    (∀ (s : AppState) (req : Request) (tok : Option JwtToken) (now : Nat) (e : HTTPError),
      requiresAuth req = true → authGate tok now = .error e →
      handle s req tok now = (s, .httpError e) ∧
        e.status = 401 ∧ ("WWW-Authenticate", "Bearer") ∈ e.headers) ∧
    (requiresAuth .homeReq = false ∧
      ∀ u p, requiresAuth (.tokenReq u p) = false) ∧
    (∀ req : Request, req ≠ .homeReq → (∀ u p, req ≠ .tokenReq u p) →
      requiresAuth req = true) := by
  refine ⟨?_, ⟨rfl, fun u p => rfl⟩, ?_⟩
  · intro s req tok now e hreq hgate
    refine ⟨?_, authGate_error_shape tok now e hgate⟩
    unfold handle
    rw [if_pos hreq, hgate]
  · intro req h1 h2
    cases req with
    | homeReq => exact absurd rfl h1
    | tokenReq u p => exact absurd rfl (h2 u p)
    | _ => rfl

/-- Closed witness for C9: a `GET /students` with no credential is rejected
with the 401 bearer challenge and the initial state is untouched. -/
theorem C9_auth_gate_guards_all_operations_witness :
    handle initState .getStudents none 0 = (initState, .httpError not_authenticated) ∧
      not_authenticated.status = 401 ∧
      ("WWW-Authenticate", "Bearer") ∈ not_authenticated.headers :=
  C9_auth_gate_guards_all_operations.1 initState .getStudents none 0
    not_authenticated rfl rfl

/-- Effect of one dispatched handler body on the three id counters: each
counter is either untouched, or the request is that collection's create and
the counter advances by exactly one. -/
theorem dispatch_counters (s : AppState) (req : Request) (now : Nat) :
    ((dispatch s req now).1.next_student_id = s.next_student_id ∨
      (isCreateStudent req = true ∧
        (dispatch s req now).1.next_student_id = s.next_student_id + 1)) ∧
    ((dispatch s req now).1.next_course_id = s.next_course_id ∨
      (isCreateCourse req = true ∧
        (dispatch s req now).1.next_course_id = s.next_course_id + 1)) ∧
    ((dispatch s req now).1.next_enrollment_id = s.next_enrollment_id ∨
      (isCreateEnrollment req = true ∧
        (dispatch s req now).1.next_enrollment_id = s.next_enrollment_id + 1)) := by
  cases req <;>
    simp only [dispatch, isCreateStudent, isCreateCourse, isCreateEnrollment,
      home, get_students, add_student, get_student, update_student, delete_student,
      get_courses, add_course, get_course, update_course, delete_course,
      get_enrollments, add_enrollment, get_enrollment, delete_enrollment] <;>
    (repeat' split) <;> simp

/-- Effect of one full request on the three id counters. -/
theorem handle_counters (s : AppState) (req : Request) (tok : Option JwtToken)
    (now : Nat) :
    ((handle s req tok now).1.next_student_id = s.next_student_id ∨
      (isCreateStudent req = true ∧
        (handle s req tok now).1.next_student_id = s.next_student_id + 1)) ∧
    ((handle s req tok now).1.next_course_id = s.next_course_id ∨
      (isCreateCourse req = true ∧
        (handle s req tok now).1.next_course_id = s.next_course_id + 1)) ∧
    ((handle s req tok now).1.next_enrollment_id = s.next_enrollment_id ∨
      (isCreateEnrollment req = true ∧
        (handle s req tok now).1.next_enrollment_id = s.next_enrollment_id + 1)) := by
  unfold handle
  split
  · cases hg : authGate tok now with
    | error e => exact ⟨Or.inl rfl, Or.inl rfl, Or.inl rfl⟩
    | ok u => exact dispatch_counters s req now
  · exact dispatch_counters s req now

/-- Counters never decrease across any request. -/
theorem handle_counters_mono (s : AppState) (req : Request) (tok : Option JwtToken)
    (now : Nat) :
    s.next_student_id ≤ (handle s req tok now).1.next_student_id ∧
      s.next_course_id ≤ (handle s req tok now).1.next_course_id ∧
      s.next_enrollment_id ≤ (handle s req tok now).1.next_enrollment_id := by
  obtain ⟨h1, h2, h3⟩ := handle_counters s req tok now
  refine ⟨?_, ?_, ?_⟩
  · rcases h1 with h | ⟨_, h⟩ <;> omega
  · rcases h2 with h | ⟨_, h⟩ <;> omega
  · rcases h3 with h | ⟨_, h⟩ <;> omega

/-- A successful student create responds with the record carrying the old
counter value as id and advances the student counter by one. -/
theorem handle_postStudents_ok (s : AppState) (p : StudentIn)
    (tok : Option JwtToken) (now : Nat) (r : StudentRec)
    (h : (handle s (.postStudents p) tok now).2 = .studentOut r) :
    r.id = s.next_student_id ∧
      (handle s (.postStudents p) tok now).1.next_student_id = s.next_student_id + 1 := by
  unfold handle at h ⊢
  simp only [requiresAuth, if_true] at h ⊢
  cases hg : authGate tok now with
  | error e => rw [hg] at h; simp at h
  | ok u =>
    rw [hg] at h
    simp only [dispatch, add_student, Response.studentOut.injEq] at h
    subst h
    exact ⟨rfl, rfl⟩

/-- A successful course create responds with the record carrying the old
counter value as id and advances the course counter by one. -/
theorem handle_postCourses_ok (s : AppState) (p : CourseIn)
    (tok : Option JwtToken) (now : Nat) (r : CourseRec)
    (h : (handle s (.postCourses p) tok now).2 = .courseOut r) :
    r.id = s.next_course_id ∧
      (handle s (.postCourses p) tok now).1.next_course_id = s.next_course_id + 1 := by
  unfold handle at h ⊢
  simp only [requiresAuth, if_true] at h ⊢
  cases hg : authGate tok now with
  | error e => rw [hg] at h; simp at h
  | ok u =>
    rw [hg] at h
    simp only [dispatch, add_course, Response.courseOut.injEq] at h
    subst h
    exact ⟨rfl, rfl⟩

/-- A successful enrollment create responds with the record carrying the old
counter value as id and advances the enrollment counter by one. -/
theorem handle_postEnrollments_ok (s : AppState) (p : EnrollmentIn)
    (tok : Option JwtToken) (now : Nat) (r : EnrollmentRec)
    (h : (handle s (.postEnrollments p) tok now).2 = .enrollmentOut r) :
    r.id = s.next_enrollment_id ∧
      (handle s (.postEnrollments p) tok now).1.next_enrollment_id =
        s.next_enrollment_id + 1 := by
  unfold handle at h ⊢
  simp only [requiresAuth, if_true] at h ⊢
  cases hg : authGate tok now with
  | error e => rw [hg] at h; simp at h
  | ok u =>
    rw [hg] at h
    simp only [dispatch, add_enrollment] at h ⊢
    split at h
    · exact absurd h (by simp)
    · split at h
      · exact absurd h (by simp)
      · rename_i h1 h2
        simp only [Response.enrollmentOut.injEq] at h
        subst h
        rw [if_neg h1, if_neg h2]
        exact ⟨rfl, rfl⟩

/-- The head contribution of one request to the assigned student ids: empty,
or exactly the current counter value with the counter advanced by one. -/
theorem head_student_ids (s : AppState) (req : Request) (tok : Option JwtToken)
    (now : Nat) :
    (match req, (handle s req tok now).2 with
      | Request.postStudents _, Response.studentOut r => [r.id]
      | _, _ => ([] : List Int)) = [] ∨
    ((match req, (handle s req tok now).2 with
      | Request.postStudents _, Response.studentOut r => [r.id]
      | _, _ => ([] : List Int)) = [s.next_student_id] ∧
      (handle s req tok now).1.next_student_id = s.next_student_id + 1) := by
  cases req with
  | postStudents p =>
    cases hresp : (handle s (.postStudents p) tok now).2 with
    | studentOut r =>
      obtain ⟨hid, hnext⟩ := handle_postStudents_ok s p tok now r hresp
      exact Or.inr ⟨by simp [hid], hnext⟩
    | _ => exact Or.inl rfl
  | _ => exact Or.inl rfl

/-- The head contribution of one request to the assigned course ids. -/
theorem head_course_ids (s : AppState) (req : Request) (tok : Option JwtToken)
    (now : Nat) :
    (match req, (handle s req tok now).2 with
      | Request.postCourses _, Response.courseOut r => [r.id]
      | _, _ => ([] : List Int)) = [] ∨
    ((match req, (handle s req tok now).2 with
      | Request.postCourses _, Response.courseOut r => [r.id]
      | _, _ => ([] : List Int)) = [s.next_course_id] ∧
      (handle s req tok now).1.next_course_id = s.next_course_id + 1) := by
  cases req with
  | postCourses p =>
    cases hresp : (handle s (.postCourses p) tok now).2 with
    | courseOut r =>
      obtain ⟨hid, hnext⟩ := handle_postCourses_ok s p tok now r hresp
      exact Or.inr ⟨by simp [hid], hnext⟩
    | _ => exact Or.inl rfl
  | _ => exact Or.inl rfl

/-- The head contribution of one request to the assigned enrollment ids. -/
theorem head_enrollment_ids (s : AppState) (req : Request) (tok : Option JwtToken)
    (now : Nat) :
    (match req, (handle s req tok now).2 with
      | Request.postEnrollments _, Response.enrollmentOut r => [r.id]
      | _, _ => ([] : List Int)) = [] ∨
    ((match req, (handle s req tok now).2 with
      | Request.postEnrollments _, Response.enrollmentOut r => [r.id]
      | _, _ => ([] : List Int)) = [s.next_enrollment_id] ∧
      (handle s req tok now).1.next_enrollment_id = s.next_enrollment_id + 1) := by
  cases req with
  | postEnrollments p =>
    cases hresp : (handle s (.postEnrollments p) tok now).2 with
    | enrollmentOut r =>
      obtain ⟨hid, hnext⟩ := handle_postEnrollments_ok s p tok now r hresp
      exact Or.inr ⟨by simp [hid], hnext⟩
    | _ => exact Or.inl rfl
  | _ => exact Or.inl rfl

/-- Along any request trace, the student ids handed out are bounded below by
the current counter and strictly increase in assignment order. -/
theorem assignedStudentIds_increasing (inputs : List StepIn) (s : AppState) :
    (∀ i ∈ assignedStudentIds s inputs, s.next_student_id ≤ i) ∧
      (assignedStudentIds s inputs).Pairwise (· < ·) := by
  induction inputs generalizing s with
  | nil => simp [assignedStudentIds]
  | cons stp rest ih =>
    obtain ⟨req, tok, now⟩ := stp
    obtain ⟨ihlb, ihpw⟩ := ih (handle s req tok now).1
    have hmono := (handle_counters_mono s req tok now).1
    rcases head_student_ids s req tok now with hhead | ⟨hhead, hnext⟩ <;>
      rw [assignedStudentIds] <;> dsimp only <;> rw [hhead]
    · rw [List.nil_append]
      exact ⟨fun i hi => le_trans hmono (ihlb i hi), ihpw⟩
    · rw [List.singleton_append]
      refine ⟨?_, ?_⟩
      · intro i hi
        rcases List.mem_cons.mp hi with h | h
        · omega
        · have := ihlb i h
          omega
      · refine List.pairwise_cons.mpr ⟨?_, ihpw⟩
        intro b hb
        have := ihlb b hb
        omega

/-- Along any request trace, the course ids handed out are bounded below by
the current counter and strictly increase in assignment order. -/
theorem assignedCourseIds_increasing (inputs : List StepIn) (s : AppState) :
    (∀ i ∈ assignedCourseIds s inputs, s.next_course_id ≤ i) ∧
      (assignedCourseIds s inputs).Pairwise (· < ·) := by
  induction inputs generalizing s with
  | nil => simp [assignedCourseIds]
  | cons stp rest ih =>
    obtain ⟨req, tok, now⟩ := stp
    obtain ⟨ihlb, ihpw⟩ := ih (handle s req tok now).1
    have hmono := (handle_counters_mono s req tok now).2.1
    rcases head_course_ids s req tok now with hhead | ⟨hhead, hnext⟩ <;>
      rw [assignedCourseIds] <;> dsimp only <;> rw [hhead]
    · rw [List.nil_append]
      exact ⟨fun i hi => le_trans hmono (ihlb i hi), ihpw⟩
    · rw [List.singleton_append]
      refine ⟨?_, ?_⟩
      · intro i hi
        rcases List.mem_cons.mp hi with h | h
        · omega
        · have := ihlb i h
          omega
      · refine List.pairwise_cons.mpr ⟨?_, ihpw⟩
        intro b hb
        have := ihlb b hb
        omega

/-- Along any request trace, the enrollment ids handed out are bounded below
by the current counter and strictly increase in assignment order. -/
theorem assignedEnrollmentIds_increasing (inputs : List StepIn) (s : AppState) :
    (∀ i ∈ assignedEnrollmentIds s inputs, s.next_enrollment_id ≤ i) ∧
      (assignedEnrollmentIds s inputs).Pairwise (· < ·) := by
  induction inputs generalizing s with
  | nil => simp [assignedEnrollmentIds]
  | cons stp rest ih =>
    obtain ⟨req, tok, now⟩ := stp
    obtain ⟨ihlb, ihpw⟩ := ih (handle s req tok now).1
    have hmono := (handle_counters_mono s req tok now).2.2
    rcases head_enrollment_ids s req tok now with hhead | ⟨hhead, hnext⟩ <;>
      rw [assignedEnrollmentIds] <;> dsimp only <;> rw [hhead]
    · rw [List.nil_append]
      exact ⟨fun i hi => le_trans hmono (ihlb i hi), ihpw⟩
    · rw [List.singleton_append]
      refine ⟨?_, ?_⟩
      · intro i hi
        rcases List.mem_cons.mp hi with h | h
        · omega
        · have := ihlb i h
          omega
      · refine List.pairwise_cons.mpr ⟨?_, ihpw⟩
        intro b hb
        have := ihlb b hb
        omega

/-- C6: each collection's counter starts at 1, never decreases across any
request, is advanced only by that collection's create (in particular any
delete leaves all three counters unchanged), and along any request trace
from the initial state the ids assigned per collection are strictly
increasing — so no previously assigned id is ever assigned again. -/
theorem C6_counters_monotone_never_reused :
    (initState.next_student_id = 1 ∧ initState.next_course_id = 1 ∧
      initState.next_enrollment_id = 1) ∧
    (∀ (s : AppState) (req : Request) (tok : Option JwtToken) (now : Nat),
      s.next_student_id ≤ (handle s req tok now).1.next_student_id ∧
        s.next_course_id ≤ (handle s req tok now).1.next_course_id ∧
        s.next_enrollment_id ≤ (handle s req tok now).1.next_enrollment_id) ∧
    (∀ (s : AppState) (req : Request) (tok : Option JwtToken) (now : Nat),
      (isCreateStudent req = false →
        (handle s req tok now).1.next_student_id = s.next_student_id) ∧
      (isCreateCourse req = false →
        (handle s req tok now).1.next_course_id = s.next_course_id) ∧
      (isCreateEnrollment req = false →
        (handle s req tok now).1.next_enrollment_id = s.next_enrollment_id)) ∧
    (∀ (s : AppState) (req : Request) (tok : Option JwtToken) (now : Nat),
      isDelete req = true →
      (handle s req tok now).1.next_student_id = s.next_student_id ∧
        (handle s req tok now).1.next_course_id = s.next_course_id ∧
        (handle s req tok now).1.next_enrollment_id = s.next_enrollment_id) ∧
    (∀ inputs : List StepIn,
      (assignedStudentIds initState inputs).Pairwise (· < ·) ∧
        (assignedCourseIds initState inputs).Pairwise (· < ·) ∧
        (assignedEnrollmentIds initState inputs).Pairwise (· < ·)) := by
  have hnc : ∀ (s : AppState) (req : Request) (tok : Option JwtToken) (now : Nat),
      (isCreateStudent req = false →
        (handle s req tok now).1.next_student_id = s.next_student_id) ∧
      (isCreateCourse req = false →
        (handle s req tok now).1.next_course_id = s.next_course_id) ∧
      (isCreateEnrollment req = false →
        (handle s req tok now).1.next_enrollment_id = s.next_enrollment_id) := by
    intro s req tok now
    obtain ⟨h1, h2, h3⟩ := handle_counters s req tok now
    refine ⟨?_, ?_, ?_⟩
    · intro hf
      rcases h1 with h | ⟨ht, _⟩
      · exact h
      · rw [hf] at ht; exact absurd ht (by simp)
    · intro hf
      rcases h2 with h | ⟨ht, _⟩
      · exact h
      · rw [hf] at ht; exact absurd ht (by simp)
    · intro hf
      rcases h3 with h | ⟨ht, _⟩
      · exact h
      · rw [hf] at ht; exact absurd ht (by simp)
  refine ⟨⟨rfl, rfl, rfl⟩, handle_counters_mono, hnc, ?_, ?_⟩
  · intro s req tok now hdel
    obtain ⟨h1, h2, h3⟩ := hnc s req tok now
    have hs : isCreateStudent req = false := by cases req <;> simp_all [isDelete, isCreateStudent]
    have hc : isCreateCourse req = false := by cases req <;> simp_all [isDelete, isCreateCourse]
    have he : isCreateEnrollment req = false := by
      cases req <;> simp_all [isDelete, isCreateEnrollment]
    exact ⟨h1 hs, h2 hc, h3 he⟩
  · intro inputs
    exact ⟨(assignedStudentIds_increasing inputs initState).2,
      (assignedCourseIds_increasing inputs initState).2,
      (assignedEnrollmentIds_increasing inputs initState).2⟩

/-- Closed witness for C6: a delete request (even unauthenticated) leaves
all three counters of the initial state unchanged. -/
theorem C6_counters_monotone_never_reused_witness :
    (handle initState (.delStudent 5) none 0).1.next_student_id =
        initState.next_student_id ∧
      (handle initState (.delStudent 5) none 0).1.next_course_id =
        initState.next_course_id ∧
      (handle initState (.delStudent 5) none 0).1.next_enrollment_id =
        initState.next_enrollment_id :=
  C6_counters_monotone_never_reused.2.2.2.1 initState (.delStudent 5) none 0 rfl

end CollegeMgmt
